import Mathlib

/-!
Verification of the document indexing and retrieval pipeline of the
ai-paper-search repository against its specification.

The development shallowly embeds the pipeline's core:
  * `chunk_text` — `PDFProcessor.chunk_text` (app/services/file_processing.py),
  * `merge_vectorstores`, `create_embeddings`, `load_vectorstore`,
    `save_vectorstore_steps`, `add_documents_to_project_states`, `query`,
    `get_project_stats` — `RAGPipeline` (app/services/rag_pipeline.py).

Python machine behaviour that matters here and how it is embedded:
  * `str.split()` (no separator) splits on runs of whitespace and drops empty
    pieces — embedded as `pythonSplit`, a direct recursion on the character
    list;
  * `range(0, n, step)` with `step = 0` raises `ValueError`, with `step < 0`
    and `n >= 0` is empty, and with `step > 0` enumerates `j * step` for
    `j < ceil(n / step) = (n + step - 1) / step` — embedded in `chunk_text`
    by the error / empty / `List.range` three-way split on the sign of the
    integer step;
  * fallible code is embedded with `Except String`.
-/

/-- Word kind record produced by `PDFProcessor.chunk_text`: the Python dict
with keys `text`, `chunk_index`, `estimated_page`, `word_count`. -/
structure Chunk where
  text : String
  chunk_index : Nat
  estimated_page : Nat
  word_count : Nat
deriving DecidableEq, Repr

/-- Helper for `pythonSplit`: walks the character list, accumulating the
current word in reverse; a whitespace character ends the current word (which
is emitted only when non-empty), exactly as Python `str.split()` with no
separator behaves. -/
def splitWordsAux : List Char → List Char → List String
  | [], [] => []
  | [], cur => [String.mk cur.reverse]
  | c :: cs, cur =>
    if c.isWhitespace then
      (if cur.isEmpty then splitWordsAux cs [] else String.mk cur.reverse :: splitWordsAux cs [])
    else splitWordsAux cs (c :: cur)

/-- Embedding of Python `text.split()` (file_processing.py line 83): split on
runs of whitespace, dropping empty pieces. -/
def pythonSplit (s : String) : List String := splitWordsAux s.toList []

/-- Embedding of `PDFProcessor.chunk_text` (file_processing.py lines 80-99).

The Python loop is `for i in range(0, len(words), chunk_size - chunk_overlap)`
where `chunk_size - chunk_overlap` is an arbitrary-precision integer:
  * step `= 0`: `range` raises `ValueError("range() arg 3 must not be zero")`;
  * step `< 0`: `range(0, len(words), step)` is empty, so the function
    silently returns the empty chunk list;
  * step `> 0`: the loop visits `i = j * step` for
    `j < (len(words) + step - 1) / step`, and each iteration appends a dict
    with `text = " ".join(words[i:i+chunk_size])`,
    `chunk_index = len(chunks)` (which equals the iteration count `j`),
    `estimated_page = i // chunk_size + 1`, and
    `word_count = len(words[i:i+chunk_size])`. -/
def chunk_text (chunk_size chunk_overlap : Nat) (text : String) : Except String (List Chunk) :=
  let words := pythonSplit text
  let step : Int := (chunk_size : Int) - (chunk_overlap : Int)
  if step = 0 then Except.error "range() arg 3 must not be zero"
  else if step < 0 then Except.ok []
  else
    let st := step.toNat
    Except.ok ((List.range ((words.length + st - 1) / st)).map (fun j =>
      { text := String.intercalate " " ((words.drop (j * st)).take chunk_size)
        chunk_index := j
        estimated_page := (j * st) / chunk_size + 1
        word_count := ((words.drop (j * st)).take chunk_size).length }))

/-- The Chunker algorithm as the specification section 4.2 words it: split the
text into whitespace-delimited words; advance a sliding window of size
`chunk_size_words` by step `chunk_size_words - overlap_words`; each window
becomes one Chunk whose `chunk_index` is its 0-based emission order and whose
`estimated_page` is `floor(start_offset / chunk_size_words) + 1`. -/
def specChunks (chunk_size chunk_overlap : Nat) (text : String) : List Chunk :=
  let words := pythonSplit text
  let st := chunk_size - chunk_overlap
  (List.range ((words.length + st - 1) / st)).map (fun j =>
    { text := String.intercalate " " ((words.drop (j * st)).take chunk_size)
      chunk_index := j
      estimated_page := (j * st) / chunk_size + 1
      word_count := ((words.drop (j * st)).take chunk_size).length })

/-- Word overlap between two chunks' word lists: the largest `n` such that the
last `n` words of the first list are exactly the first `n` words of the
second. -/
def wordOverlap (a b : List String) : Nat :=
  ((List.range (min a.length b.length + 1)).filter
    (fun n => a.drop (a.length - n) = b.take n)).foldr Nat.max 0

/-- Metadata attached to each indexed entry by
`RAGPipeline.create_embeddings` (rag_pipeline.py lines 41-49). -/
structure DocMetadata where
  file_id : Nat
  chunk_index : Nat
  estimated_page : Nat
  word_count : Nat
deriving DecidableEq, Repr

/-- One entry of the FAISS docstore: a langchain Document with its text
content and its metadata. -/
structure Document where
  page_content : String
  metadata : DocMetadata
deriving DecidableEq, Repr

/-- A FAISS vectorstore of one project, abstracted to the ordered list of its
docstore entries (`vectorstore.docstore._dict.values()`), each of which the
real store pairs with its embedding vector. -/
structure FAISSStore where
  docs : List Document
deriving DecidableEq, Repr

/-- An outbound call to one of the two remote collaborators: the embedding
service or the language-generation service. -/
inductive ServiceCall where
  | embedCall (text : String)
  | generateCall (prompt : String)
deriving DecidableEq, Repr

/-- Embedding of `RAGPipeline.create_embeddings` (rag_pipeline.py lines
38-58): builds a fresh FAISS vectorstore whose entries are the given chunks'
texts with metadata `file_id`, `chunk_index`, `estimated_page`, `word_count`. -/
def create_embeddings (chunks : List Chunk) (file_id : Nat) : FAISSStore :=
  ⟨chunks.map (fun c => ⟨c.text, ⟨file_id, c.chunk_index, c.estimated_page, c.word_count⟩⟩)⟩

/-- Embedding of `RAGPipeline.merge_vectorstores` (rag_pipeline.py lines
77-84). If no existing vectorstore is present the new one is returned as-is
with no service calls; otherwise `existing.add_documents(new.docstore._dict
.values())` appends the new store's entries to the existing entries — the
`add_documents` call embeds each ADDED document's text (second component:
the embedding-service calls it makes), and never touches an existing entry. -/
def merge_vectorstores (existing_vectorstore : Option FAISSStore)
    (new_vectorstore : FAISSStore) : FAISSStore × List ServiceCall :=
  match existing_vectorstore with
  | none => (new_vectorstore, [])
  | some ex =>
      (⟨ex.docs ++ new_vectorstore.docs⟩,
       new_vectorstore.docs.map (fun d => ServiceCall.embedCall d.page_content))

/-- Top-K retrieval count: `setup_qa_chain` builds the retriever with
`search_kwargs` `k` fixed at 5 (rag_pipeline.py line 117). -/
def retrieval_k : Nat := 5

/-- Modelled from the spec: the FAISS similarity search behind
`vectorstore.as_retriever(...)` is an external library call whose code is not
in this repository; specification section 4.4 fixes its contract — `search`
returns up to `k` nearest entries by descending similarity, ties broken by
insertion order (earlier entries first), and an empty index yields an empty
sequence. Modelled as a stable sort of the docstore entries by descending
score followed by `take k`. -/
def faiss_search (score : Document → Int) (k : Nat) (vs : FAISSStore) : List Document :=
  (vs.docs.mergeSort (fun a b => score b ≤ score a)).take k

/-- Leading part of the fixed QA prompt template of `setup_qa_chain`
(rag_pipeline.py lines 89-105), up to the retrieved context. -/
def qa_prompt_head : String :=
  "You are an AI assistant helping researchers analyze academic papers. \n        Use the following pieces of context to answer the question. If you don't know the answer based on the context, just say that you don't know.\n\n        Context:\n        "

/-- Middle part of the fixed QA prompt template, between the retrieved
context and the question. -/
def qa_prompt_mid : String := "\n\n        Question: "

/-- Trailing part of the fixed QA prompt template, after the question: the
six formatting instructions (answer language, citations, bold key findings,
bullet points, quotes) and the final Answer: cue. -/
def qa_prompt_tail : String :=
  "\n\n        Instructions:\n        1. Provide a detailed answer in the same language as the question\n        2. If the question is in Korean, answer in Korean. If in English, answer in English\n        3. Always cite sources using the format: [Page X] or [Source X] where X is the page number\n        4. Highlight key findings with **bold text**\n        5. Use bullet points for multiple findings\n        6. Include specific quotes when relevant, marked with quotation marks\n\n        Answer:"

/-- The stuff-chain context: the retrieved documents' texts joined into one
context block. -/
def stuff_context (docs : List Document) : String :=
  String.intercalate "\n\n" (docs.map (fun d => d.page_content))

/-- The full prompt handed to the generation service by the QA chain. -/
def build_prompt (docs : List Document) (question : String) : String :=
  qa_prompt_head ++ stuff_context docs ++ qa_prompt_mid ++ question ++ qa_prompt_tail

/-- One source citation as `RAGPipeline.query` formats it (rag_pipeline.py
lines 160-166): the dict with keys `content`, `metadata` and `page`. -/
structure QuerySource where
  content : String
  metadata : DocMetadata
  page : Nat
deriving DecidableEq, Repr

/-- The dict `RAGPipeline.query` returns: keys `answer` and `sources`. -/
structure QueryResult where
  answer : String
  sources : List QuerySource
deriving DecidableEq, Repr

/-- Formatting of one retrieved document into a source citation: `content` is
the document's text, `metadata` the stored metadata dict, and `page` is
`doc.metadata.get("estimated_page", ...)` (always present for entries this
pipeline created). -/
def format_source (d : Document) : QuerySource :=
  ⟨d.page_content, d.metadata, d.metadata.estimated_page⟩

/-- Embedding of `RAGPipeline.query` (rag_pipeline.py lines 142-171),
parameterised by the two remote collaborators: `score` is the similarity the
embedding service induces (question text times indexed entry), `gen` the
generation service, and `store` the per-project load result of
`load_vectorstore`. Besides the result dict it returns the list of remote
service calls made: none when the project has no persisted index, otherwise
one embedding call for the question and one generation call with the stuffed
prompt. -/
def query (score : String → Document → Int) (gen : String → String)
    (store : Nat → Option FAISSStore) (question : String) (project_id : Nat) :
    QueryResult × List ServiceCall :=
  match store project_id with
  | none =>
      (⟨"No documents found in this project. Please upload some PDF files first.", []⟩, [])
  | some vs =>
      let retrieved := faiss_search (score question) retrieval_k vs
      let prompt := build_prompt retrieved question
      (⟨gen prompt, retrieved.map format_source⟩,
       [ServiceCall.embedCall question, ServiceCall.generateCall prompt])

/-- Concrete store with no persisted index for any project. -/
def emptyStore : Nat → Option FAISSStore := fun _ => none

/-- A concrete indexed document for witnesses. -/
def docW : Document := ⟨"solar power findings", ⟨1, 0, 1, 3⟩⟩

/-- Concrete store holding one persisted index with the single entry `docW`
for every project. -/
def oneDocStore : Nat → Option FAISSStore := fun _ => some ⟨[docW]⟩

/-- Constant similarity used in witnesses. -/
def scoreW : String → Document → Int := fun _ _ => 0

/-- Generation service answering "A", used in witnesses. -/
def genA : String → String := fun _ => "A"

/-- Generation service answering "B", used in witnesses. -/
def genB : String → String := fun _ => "B"

/-- The dict `RAGPipeline.get_project_stats` returns: keys `total_documents`,
`total_chunks` and `file_ids`. -/
structure ProjectStats where
  total_documents : Nat
  total_chunks : Nat
  file_ids : List Nat
deriving DecidableEq, Repr

/-- Embedding of `RAGPipeline.get_project_stats` (rag_pipeline.py lines
173-197): with no persisted index it reports zeros and an empty id list;
otherwise it walks every docstore entry, counting chunks and collecting the
`file_id` values into a set (embedded as the duplicate-free list `dedup`). -/
def get_project_stats (store : Nat → Option FAISSStore) (project_id : Nat) :
    ProjectStats :=
  match store project_id with
  | none => ⟨0, 0, []⟩
  | some vs =>
      let fids := (vs.docs.map (fun d => d.metadata.file_id)).dedup
      ⟨fids.length, vs.docs.length, fids⟩

/-- Durable state of one project's pickle file on disk. `complete docs` is a
fully written pickle of a vectorstore with the given entries; `truncated` is
the state between `open(index_path, "wb")` — which truncates the file in
place — and the completion of `pickle.dump`. -/
inductive PersistState where
  | complete (docs : List Document)
  | truncated
deriving DecidableEq, Repr

/-- The on-disk FAISS index directory: one optional pickle file per project
id (`faiss_index/project_{id}.pkl`). -/
abbrev FileSys := Nat → Option PersistState

/-- Writing one project's file, leaving every other project's file alone. -/
def fsWrite (fs : FileSys) (project_id : Nat) (st : PersistState) : FileSys :=
  fun q => if q = project_id then some st else fs q

/-- Embedding of `RAGPipeline.load_vectorstore` (rag_pipeline.py lines
60-68): no file means no index (`None`); a complete pickle loads; a truncated
pickle makes `pickle.load` raise. -/
def load_vectorstore (fs : FileSys) (project_id : Nat) :
    Except String (Option FAISSStore) :=
  match fs project_id with
  | none => Except.ok none
  | some (PersistState.complete docs) => Except.ok (some ⟨docs⟩)
  | some PersistState.truncated => Except.error "pickle.load failed on truncated file"

/-- Embedding of `RAGPipeline.save_vectorstore` (rag_pipeline.py lines
70-75) as its sequence of durable states: `open(index_path, "wb")` first
truncates the project's file in place, then `pickle.dump` completes the new
contents. The list holds the on-disk state after each of the two steps. -/
def save_vectorstore_steps (fs : FileSys) (vectorstore : FAISSStore)
    (project_id : Nat) : List FileSys :=
  [fsWrite fs project_id PersistState.truncated,
   fsWrite fs project_id (PersistState.complete vectorstore.docs)]

/-- Embedding of `RAGPipeline.add_documents_to_project` (rag_pipeline.py
lines 123-140) as the sequence of durable on-disk states a crash could leave
behind: embedding the chunks, loading the existing store and merging mutate
nothing on disk (first element), then `save_vectorstore` contributes its two
states. When the load itself raises, nothing on disk was touched. -/
def add_documents_to_project_states (fs : FileSys) (chunks : List Chunk)
    (file_id project_id : Nat) : List FileSys :=
  let new_vectorstore := create_embeddings chunks file_id
  match load_vectorstore fs project_id with
  | Except.error _ => [fs]
  | Except.ok existing =>
      let merged := (merge_vectorstores existing new_vectorstore).1
      fs :: save_vectorstore_steps fs merged project_id

/-- A previously indexed entry for the C7 scenario. -/
def priorDoc : Document := ⟨"old chunk", ⟨3, 0, 1, 2⟩⟩

/-- The new chunk being indexed in the C7 scenario. -/
def newChunk : Chunk := ⟨"new chunk", 0, 1, 2⟩

/-- Starting disk state of the C7 scenario: project 1 has a complete
persisted index holding `priorDoc`; no other project has a file. -/
def fs0 : FileSys := fun q => if q = 1 then some (PersistState.complete [priorDoc]) else none

/-- Number of sliding windows: for a positive step, `j` indexes a window
exactly when its start offset `j * st` lies inside the word list. -/
lemma lt_numWindows_iff (N st j : Nat) (hst : 0 < st) :
    j < (N + st - 1) / st ↔ j * st < N := by
  rw [Nat.lt_iff_add_one_le, Nat.le_div_iff_mul_le hst, Nat.add_mul, Nat.one_mul]
  omega

/-- On a valid configuration (`chunk_overlap < chunk_size`) the code's chunker
agrees with the specification's chunker. -/
lemma chunk_text_valid_eq (chunk_size chunk_overlap : Nat) (text : String)
    (hvalid : chunk_overlap < chunk_size) :
    chunk_text chunk_size chunk_overlap text =
      Except.ok (specChunks chunk_size chunk_overlap text) := by
  have h0 : ¬ ((chunk_size : Int) - (chunk_overlap : Int) = 0) := by omega
  have h1 : ¬ ((chunk_size : Int) - (chunk_overlap : Int) < 0) := by omega
  have h2 : ((chunk_size : Int) - (chunk_overlap : Int)).toNat
      = chunk_size - chunk_overlap := by omega
  simp only [chunk_text, specChunks, h0, h1, if_false, h2, ite_false]

example : pythonSplit "" = [] := by decide

example : pythonSplit " a  bb\nc " = ["a", "bb", "c"] := by decide

example : chunk_text 3 1 "a b c" =
    Except.ok [⟨"a b c", 0, 1, 3⟩, ⟨"c", 1, 1, 1⟩] := by rfl

/-- C1 counterexample: with `chunk_size = 2`, `chunk_overlap = 3` (so
`overlap_words > chunk_size_words`) and the non-empty text "a b c", the code
does not fail at all: `range(0, 3, -1)` is empty, so `chunk_text` silently
returns the empty chunk sequence — there is no `ConfigurationError` anywhere
in the repository. -/
theorem C1_counterexample_silent_empty :
    chunk_text 2 3 "a b c" = Except.ok [] ∧
    (chunk_text 2 3 "a b c").isOk = true := by
  constructor
  · rfl
  · rfl

/-- C1 amended: for `overlap_words = chunk_size_words` the step is zero and
chunking fails with Python's `ValueError` from `range` (not a
`ConfigurationError`, which does not exist in the code); for
`overlap_words > chunk_size_words` the step is negative, the `range` is empty,
and chunking silently returns the empty chunk sequence. In neither case does
it loop forever. -/
theorem C1_invalid_config_amended (chunk_size chunk_overlap : Nat) (text : String)
    (h : chunk_size ≤ chunk_overlap) :
    (chunk_size = chunk_overlap →
      chunk_text chunk_size chunk_overlap text =
        Except.error "range() arg 3 must not be zero") ∧
    (chunk_size < chunk_overlap →
      chunk_text chunk_size chunk_overlap text = Except.ok []) := by
  constructor
  · intro heq
    subst heq
    simp [chunk_text]
  · intro hlt
    have h0 : ¬ ((chunk_size : Int) - (chunk_overlap : Int) = 0) := by omega
    have h1 : (chunk_size : Int) - (chunk_overlap : Int) < 0 := by omega
    simp [chunk_text, h0, h1]

/-- Witness for `C1_invalid_config_amended` at `chunk_size = 2`,
`chunk_overlap = 2` and at `chunk_size = 2`, `chunk_overlap = 3`. -/
theorem C1_invalid_config_amended_witness :
    chunk_text 2 2 "a b" = Except.error "range() arg 3 must not be zero" ∧
    chunk_text 2 3 "a b" = Except.ok [] :=
  ⟨(C1_invalid_config_amended 2 2 "a b" (by omega)).1 rfl,
   (C1_invalid_config_amended 2 3 "a b" (by omega)).2 (by omega)⟩

/-- C4: for every valid configuration (`chunk_overlap < chunk_size`) the code
computes exactly the chunk sequence the specification describes: one chunk per
sliding window of size `chunk_size_words` advanced by
`chunk_size_words - overlap_words`, with `chunk_index` the 0-based emission
order and `estimated_page = floor(start_offset / chunk_size_words) + 1`; and
empty input text (no words) yields zero chunks without error. -/
theorem C4_chunker_refines_spec (chunk_size chunk_overlap : Nat) (text : String)
    (hvalid : chunk_overlap < chunk_size) :
    chunk_text chunk_size chunk_overlap text =
      Except.ok (specChunks chunk_size chunk_overlap text) ∧
    (pythonSplit text = [] →
      chunk_text chunk_size chunk_overlap text = Except.ok []) := by
  have hmain := chunk_text_valid_eq chunk_size chunk_overlap text hvalid
  refine ⟨hmain, fun hw => ?_⟩
  rw [hmain]
  have hst : 0 < chunk_size - chunk_overlap := by omega
  simp only [specChunks, hw, List.length_nil, Nat.zero_add]
  rw [Nat.div_eq_of_lt (by omega)]
  simp

/-- Witness for `C4_chunker_refines_spec` at `chunk_size = 3`,
`chunk_overlap = 1`, text "a b c d e" (and the empty text for the second
conjunct). -/
theorem C4_chunker_refines_spec_witness :
    chunk_text 3 1 "a b c d e" = Except.ok (specChunks 3 1 "a b c d e") ∧
    chunk_text 3 1 "" = Except.ok [] :=
  ⟨(C4_chunker_refines_spec 3 1 "a b c d e" (by omega)).1,
   (C4_chunker_refines_spec 3 1 "" (by omega)).2 (by rfl)⟩

example : wordOverlap ["a", "b", "c"] ["b", "c", "d"] = 2 := by decide

/-- C5 counterexample: with the valid configuration `chunk_size = 10`,
`chunk_overlap = 8` and the 7-word text "a b c d e f g", chunking yields four
chunks, so the pair of consecutive chunks number 0 and number 1 does not
involve the final chunk — yet the word overlap between them is 5, not the
configured 8 (the text has fewer words than one full window, so every window
is short, not just the final one). -/
theorem C5_counterexample_short_nonfinal_overlap :
    chunk_text 10 8 "a b c d e f g" = Except.ok
      [⟨"a b c d e f g", 0, 1, 7⟩, ⟨"c d e f g", 1, 1, 5⟩,
       ⟨"e f g", 2, 1, 3⟩, ⟨"g", 3, 1, 1⟩] ∧
    wordOverlap (pythonSplit "a b c d e f g") (pythonSplit "c d e f g") = 5 := by
  constructor
  · rfl
  · decide

/-- C5 amended: for every chunk sequence produced with a valid configuration,
chunk indices are exactly `0, 1, 2, ...` in emission order (hence strictly
increasing), every chunk's word count is at most `chunk_size_words`, and for
each pair of consecutive chunks, dropping the first
`chunk_size_words - overlap_words` words of the earlier chunk's window yields
exactly the leading words of the later chunk's window; that shared part has
`min(overlap_words, word count of the later chunk)` words — it equals the
configured overlap whenever the later chunk holds at least `overlap_words`
words, but is smaller whenever the later chunk is shorter than that, which can
happen at any chunk (not only the final one) when the text has fewer than
`chunk_size_words` words. -/
theorem C5_chunk_invariants_amended (chunk_size chunk_overlap : Nat) (text : String)
    (cs : List Chunk) (hvalid : chunk_overlap < chunk_size)
    (hok : chunk_text chunk_size chunk_overlap text = Except.ok cs) :
    cs.map Chunk.chunk_index = List.range cs.length ∧
    (∀ c ∈ cs, c.word_count ≤ chunk_size) ∧
    (∀ j, ∀ hj : j + 1 < cs.length,
      (cs.get ⟨j, Nat.lt_of_succ_lt hj⟩).text = String.intercalate " "
        (((pythonSplit text).drop (j * (chunk_size - chunk_overlap))).take chunk_size) ∧
      (((pythonSplit text).drop (j * (chunk_size - chunk_overlap))).take chunk_size).drop
          (chunk_size - chunk_overlap)
        = (((pythonSplit text).drop ((j + 1) * (chunk_size - chunk_overlap))).take
            chunk_size).take chunk_overlap ∧
      ((((pythonSplit text).drop ((j + 1) * (chunk_size - chunk_overlap))).take
          chunk_size).take chunk_overlap).length
        = min chunk_overlap (cs.get ⟨j + 1, hj⟩).word_count) := by
  rw [chunk_text_valid_eq chunk_size chunk_overlap text hvalid] at hok
  have hcs : cs = specChunks chunk_size chunk_overlap text := (Except.ok.inj hok).symm
  subst hcs
  refine ⟨?_, ?_, ?_⟩
  · simp only [specChunks, List.map_map, List.length_map, List.length_range]
    exact List.map_id _
  · intro c hc
    simp only [specChunks, List.mem_map, List.mem_range] at hc
    obtain ⟨j, _, rfl⟩ := hc
    simp [List.length_take]
  · intro j hj
    refine ⟨?_, ?_, ?_⟩
    · simp [specChunks, List.get_eq_getElem, List.getElem_map, List.getElem_range]
    · rw [List.drop_take, List.drop_drop, List.take_take]
      have ha : j * (chunk_size - chunk_overlap) + (chunk_size - chunk_overlap)
          = (j + 1) * (chunk_size - chunk_overlap) := by ring
      have hb : chunk_size - (chunk_size - chunk_overlap) = chunk_overlap := by omega
      have hc : min chunk_overlap chunk_size = chunk_overlap := by omega
      rw [ha, hb, hc]
    · simp only [specChunks, List.get_eq_getElem, List.getElem_map, List.getElem_range]
      simp [List.length_take]

/-- Witness for `C5_chunk_invariants_amended` at `chunk_size = 10`,
`chunk_overlap = 8`, text "a b c d e f g". -/
theorem C5_chunk_invariants_amended_witness :
    ([(⟨"a b c d e f g", 0, 1, 7⟩ : Chunk), ⟨"c d e f g", 1, 1, 5⟩,
      ⟨"e f g", 2, 1, 3⟩, ⟨"g", 3, 1, 1⟩].map Chunk.chunk_index)
      = List.range ([(⟨"a b c d e f g", 0, 1, 7⟩ : Chunk), ⟨"c d e f g", 1, 1, 5⟩,
          ⟨"e f g", 2, 1, 3⟩, ⟨"g", 3, 1, 1⟩].length) :=
  (C5_chunk_invariants_amended 10 8 "a b c d e f g"
    [⟨"a b c d e f g", 0, 1, 7⟩, ⟨"c d e f g", 1, 1, 5⟩,
     ⟨"e f g", 2, 1, 3⟩, ⟨"g", 3, 1, 1⟩] (by omega) (by rfl)).1

/-- C10: for every valid configuration, the chunk sequence covers the input:
every whitespace-delimited word of the text appears in at least one chunk's
window (whose joined text is the chunk's `text` field), and every emitted
chunk is non-empty (`word_count >= 1`). -/
theorem C10_chunk_coverage (chunk_size chunk_overlap : Nat) (text : String)
    (cs : List Chunk) (hvalid : chunk_overlap < chunk_size)
    (hok : chunk_text chunk_size chunk_overlap text = Except.ok cs) :
    (∀ c ∈ cs, 1 ≤ c.word_count) ∧
    (∀ k, ∀ hk : k < (pythonSplit text).length,
      ∃ j, ∃ hj : j < cs.length, ∃ cw : List String,
        (cs.get ⟨j, hj⟩).text = String.intercalate " " cw ∧
        (cs.get ⟨j, hj⟩).word_count = cw.length ∧
        (pythonSplit text).get ⟨k, hk⟩ ∈ cw) := by
  rw [chunk_text_valid_eq chunk_size chunk_overlap text hvalid] at hok
  have hcs : cs = specChunks chunk_size chunk_overlap text := (Except.ok.inj hok).symm
  subst hcs
  have hst : 0 < chunk_size - chunk_overlap := by omega
  constructor
  · intro c hc
    simp only [specChunks, List.mem_map, List.mem_range] at hc
    obtain ⟨j, hj, rfl⟩ := hc
    rw [lt_numWindows_iff _ _ _ hst] at hj
    simp only [List.length_take, List.length_drop]
    omega
  · intro k hk
    set words := pythonSplit text with hwords
    set st := chunk_size - chunk_overlap with hstdef
    refine ⟨k / st, ?_, ?_⟩
    · have hle : k / st * st ≤ k := Nat.div_mul_le_self k st
      have hlen : (specChunks chunk_size chunk_overlap text).length
          = (words.length + st - 1) / st := by
        simp [specChunks, List.length_map, List.length_range]
      rw [hlen, lt_numWindows_iff _ _ _ hst]
      omega
    · refine ⟨(words.drop (k / st * st)).take chunk_size, ?_, ?_, ?_⟩
      · simp [specChunks, List.get_eq_getElem, List.getElem_map, List.getElem_range]
      · simp [specChunks, List.get_eq_getElem, List.getElem_map, List.getElem_range]
      · have hle : k / st * st ≤ k := Nat.div_mul_le_self k st
        have hup : k < k / st * st + st := by
          have h1 := Nat.div_add_mod k st
          have h2 := Nat.mod_lt k hst
          have h3 : st * (k / st) = k / st * st := Nat.mul_comm ..
          omega
        have hi : k - k / st * st < chunk_size := by omega
        have hsome : ((words.drop (k / st * st)).take chunk_size)[k - k / st * st]?
            = some (words.get ⟨k, hk⟩) := by
          rw [List.getElem?_take_of_lt hi, List.getElem?_drop]
          have : k / st * st + (k - k / st * st) = k := by omega
          rw [this]
          exact List.getElem?_eq_getElem hk
        obtain ⟨hlt, heq⟩ := List.getElem?_eq_some.mp hsome
        exact heq ▸ List.getElem_mem hlt

/-- Witness for `C10_chunk_coverage` at `chunk_size = 3`, `chunk_overlap = 1`,
text "a b c": the second emitted chunk is non-empty. -/
theorem C10_chunk_coverage_witness :
    1 ≤ (⟨"c", 1, 1, 1⟩ : Chunk).word_count :=
  (C10_chunk_coverage 3 1 "a b c" [⟨"a b c", 0, 1, 3⟩, ⟨"c", 1, 1, 1⟩]
    (by omega) (by rfl)).1 ⟨"c", 1, 1, 1⟩ (by decide)

/-- C2: merging a new fragment into an existing index appends the fragment's
entries after the existing entries (so the result holds exactly the union of
both entry multisets, every entry of the existing index surviving unmodified
in place), the only embedding-service calls made are for the new fragment's
entries (no existing entry is re-embedded), and with no existing index the
new fragment itself becomes the index, with no service call at all. -/
theorem C2_merge_is_append (E F : FAISSStore) :
    (merge_vectorstores (some E) F).1.docs = E.docs ++ F.docs ∧
    ((merge_vectorstores (some E) F).1.docs).take E.docs.length = E.docs ∧
    (∀ d : Document, ((merge_vectorstores (some E) F).1.docs).count d
      = E.docs.count d + F.docs.count d) ∧
    (merge_vectorstores (some E) F).2
      = F.docs.map (fun d => ServiceCall.embedCall d.page_content) ∧
    merge_vectorstores none F = (F, []) := by
  refine ⟨rfl, List.take_left .., fun d => ?_, rfl, rfl⟩
  simp [merge_vectorstores, List.count_append]

/-- C6: with respect to the resulting entry multiset, merging is associative
and commutative: merging fragments in either association or order yields the
same entries up to permutation (order inside the persisted index is insertion
order and carries no meaning). -/
theorem C6_merge_assoc_comm (A B C : FAISSStore) :
    ((merge_vectorstores (some ((merge_vectorstores (some A) B).1)) C).1.docs).Perm
      ((merge_vectorstores (some A) ((merge_vectorstores (some B) C).1)).1.docs) ∧
    ((merge_vectorstores (some A) B).1.docs).Perm
      ((merge_vectorstores (some B) A).1.docs) := by
  constructor
  · simp [merge_vectorstores, List.append_assoc]
  · simpa [merge_vectorstores] using List.perm_append_comm

/-- C3: querying a project whose store holds no persisted index returns the
fixed "no documents" answer with an empty source list, raises no error, and
makes no embedding-service or generation-service call. -/
theorem C3_query_no_index (score : String → Document → Int) (gen : String → String)
    (store : Nat → Option FAISSStore) (question : String) (project_id : Nat)
    (hnone : store project_id = none) :
    query score gen store question project_id =
      (⟨"No documents found in this project. Please upload some PDF files first.", []⟩,
       []) := by
  simp [query, hnone]

/-- Witness for `C3_query_no_index` on the empty store. -/
theorem C3_query_no_index_witness :
    query (fun _ _ => 0) (fun _ => "ans") emptyStore "hello" 3 =
      (⟨"No documents found in this project. Please upload some PDF files first.", []⟩,
       []) :=
  C3_query_no_index (fun _ _ => 0) (fun _ => "ans") emptyStore "hello" 3 rfl

/-- C8: querying a project with a persisted index returns at most
`retrieval_k = 5` sources; each returned source citation is the retrieved
entry's stored content and metadata (its `page` is the stored page estimate,
and its `metadata` carries the stored `file_id` and `chunk_index` unchanged);
and the source list does not depend on the generation service at all. -/
theorem C8_query_sources_from_index (score : String → Document → Int)
    (gen gen2 : String → String) (store : Nat → Option FAISSStore)
    (question : String) (project_id : Nat) (vs : FAISSStore)
    (hload : store project_id = some vs) :
    ((query score gen store question project_id).1.sources).length ≤ 5 ∧
    (∀ s ∈ (query score gen store question project_id).1.sources,
      ∃ d ∈ vs.docs, s.content = d.page_content ∧ s.metadata = d.metadata ∧
        s.metadata.file_id = d.metadata.file_id ∧
        s.metadata.chunk_index = d.metadata.chunk_index ∧
        s.page = d.metadata.estimated_page) ∧
    (query score gen2 store question project_id).1.sources
      = (query score gen store question project_id).1.sources := by
  refine ⟨?_, ?_, ?_⟩
  · simp only [query, hload, List.length_map, faiss_search, retrieval_k]
    simp [List.length_take]
  · intro s hs
    simp only [query, hload, List.mem_map] at hs
    obtain ⟨d, hd, rfl⟩ := hs
    refine ⟨d, ?_, rfl, rfl, rfl, rfl, rfl⟩
    have hd' : d ∈ vs.docs.mergeSort (fun a b => score question b ≤ score question a) :=
      List.mem_of_mem_take hd
    exact List.mem_mergeSort.mp hd'
  · simp [query, hload]

/-- Witness for `C8_query_sources_from_index` on the one-document store. -/
theorem C8_query_sources_from_index_witness :
    ((query scoreW genA oneDocStore "q" 0).1.sources).length ≤ 5 ∧
    (query scoreW genB oneDocStore "q" 0).1.sources
      = (query scoreW genA oneDocStore "q" 0).1.sources :=
  ⟨(C8_query_sources_from_index scoreW genA genB oneDocStore "q" 0 ⟨[docW]⟩ rfl).1,
   (C8_query_sources_from_index scoreW genA genB oneDocStore "q" 0 ⟨[docW]⟩ rfl).2.2⟩

/-- C9: `get_project_stats` reports `total_chunks` equal to the number of
entries of the project's index, `total_documents` equal to the number of
distinct `file_id` values among those entries, and `file_ids` equal (as a
set) to the set of those distinct file ids; with no persisted index it
reports zeros and the empty set. -/
theorem C9_project_stats_correct (store : Nat → Option FAISSStore) (project_id : Nat) :
    (store project_id = none → get_project_stats store project_id = ⟨0, 0, []⟩) ∧
    (∀ vs, store project_id = some vs →
      (get_project_stats store project_id).total_chunks = vs.docs.length ∧
      (get_project_stats store project_id).total_documents
        = (vs.docs.map (fun d => d.metadata.file_id)).toFinset.card ∧
      ((get_project_stats store project_id).file_ids).toFinset
        = (vs.docs.map (fun d => d.metadata.file_id)).toFinset) := by
  constructor
  · intro hnone
    simp [get_project_stats, hnone]
  · intro vs hvs
    refine ⟨?_, ?_, ?_⟩
    · simp [get_project_stats, hvs]
    · simp only [get_project_stats, hvs]
      exact (List.card_toFinset _).symm
    · simp only [get_project_stats, hvs]
      ext x
      simp [List.mem_dedup]

/-- Witness for `C9_project_stats_correct` on the empty store and on the
one-document store. -/
theorem C9_project_stats_correct_witness :
    get_project_stats emptyStore 4 = ⟨0, 0, []⟩ ∧
    (get_project_stats oneDocStore 0).total_chunks = [docW].length :=
  ⟨(C9_project_stats_correct emptyStore 4).1 rfl,
   ((C9_project_stats_correct oneDocStore 0).2 ⟨[docW]⟩ rfl).1⟩

/-- C7 counterexample: indexing the single new chunk into project 1, whose
persisted index was the complete `[priorDoc]`, reaches a crash point (the
state right after `open(index_path, "wb")`) at which the prior persisted
index is gone: the file is truncated, differs from the prior state, and
`pickle.load` on it fails. `save_vectorstore` overwrites the pickle in
place, so a crash between the truncating open and the completed dump
corrupts the previously committed index. -/
theorem C7_counterexample_truncated_save :
    ((add_documents_to_project_states fs0 [newChunk] 7 1).getD 1 fs0) 1
      = some PersistState.truncated ∧
    fs0 1 = some (PersistState.complete [priorDoc]) ∧
    load_vectorstore ((add_documents_to_project_states fs0 [newChunk] 7 1).getD 1 fs0) 1
      = Except.error "pickle.load failed on truncated file" := by
  refine ⟨rfl, rfl, rfl⟩

/-- C7 amended: during load-merge-save on a project with a complete persisted
index, no other project's file is ever touched, and a crash strictly before
the save begins loses only the new fragment (the disk still holds the prior
index); but save overwrites the pickle file in place, so at the crash point
after `open(..., "wb")` and before the dump completes the project's file is
truncated (the prior index is destroyed, not kept until the new save
completes), and only once the dump completes does the file hold the merged
index: the prior entries followed by the new fragment's entries. -/
theorem C7_crash_safety_amended (fs : FileSys) (chunks : List Chunk)
    (file_id project_id : Nat) (prior : List Document)
    (hprior : fs project_id = some (PersistState.complete prior)) :
    (add_documents_to_project_states fs chunks file_id project_id).length = 3 ∧
    (∀ s ∈ add_documents_to_project_states fs chunks file_id project_id,
      ∀ q, q ≠ project_id → s q = fs q) ∧
    (add_documents_to_project_states fs chunks file_id project_id).getD 0 fs = fs ∧
    ((add_documents_to_project_states fs chunks file_id project_id).getD 1 fs) project_id
      = some PersistState.truncated ∧
    ((add_documents_to_project_states fs chunks file_id project_id).getD 2 fs) project_id
      = some (PersistState.complete (prior ++ (create_embeddings chunks file_id).docs)) := by
  have hload : load_vectorstore fs project_id = Except.ok (some ⟨prior⟩) := by
    simp [load_vectorstore, hprior]
  refine ⟨?_, ?_, ?_, ?_, ?_⟩
  · simp [add_documents_to_project_states, hload, save_vectorstore_steps]
  · intro s hs q hq
    simp only [add_documents_to_project_states, hload, save_vectorstore_steps,
      List.mem_cons, List.mem_singleton, List.not_mem_nil, or_false] at hs
    rcases hs with rfl | rfl | rfl
    · rfl
    · simp [fsWrite, hq]
    · simp [fsWrite, hq]
  · simp [add_documents_to_project_states, hload, save_vectorstore_steps]
  · simp [add_documents_to_project_states, hload, save_vectorstore_steps, fsWrite]
  · simp [add_documents_to_project_states, hload, save_vectorstore_steps, fsWrite,
      merge_vectorstores]

/-- Witness for `C7_crash_safety_amended` on the concrete C7 scenario. -/
theorem C7_crash_safety_amended_witness :
    ((add_documents_to_project_states fs0 [newChunk] 7 1).getD 1 fs0) 1
      = some PersistState.truncated ∧
    ((add_documents_to_project_states fs0 [newChunk] 7 1).getD 2 fs0) 1
      = some (PersistState.complete ([priorDoc] ++ (create_embeddings [newChunk] 7).docs)) :=
  ⟨(C7_crash_safety_amended fs0 [newChunk] 7 1 [priorDoc] rfl).2.2.2.1,
   (C7_crash_safety_amended fs0 [newChunk] 7 1 [priorDoc] rfl).2.2.2.2⟩
